import Mathlib

/-!
# Verification of the TelegramStrategy attestation adapter

Shallow embedding of `src/TelegramStrategy.js` (byteball/telegram-attestation).

The adapter's external collaborators (session store, attestation-order store,
issuance call, device messaging, the Telegram transport and the base strategy
from `attestation-kit`) are modelled as oracle fields of an environment
record; one invocation of a handler is a pure function from that environment
to a trace of observable effects (chat replies, device messages, and the
collaborator calls that were issued, in order).  JavaScript nullable values
are `Option String`; JavaScript truthiness of a nullable string is
`jsTruthy`; a thrown exception in an awaited step is `Except.error`.
-/

namespace TelegramAttestation

/-- JS truthiness of a nullable string value: `null`/`undefined` and the
empty string are falsy, every other string is truthy. -/
def jsTruthy : Option String → Bool
  | none => false
  | some s => decide (s ≠ "")

/-- Rendering of a nullable string inside a JS template literal:
`null` renders as the text "null". -/
def jsShow : Option String → String
  | none => "null"
  | some s => s

/-- A session record as read from the session store (`sessionStore.getSession`);
only its `id` field is used by this adapter. -/
structure Session where
  id : String
deriving Repr, DecidableEq

/-- An attestation order row as returned by `db.getAttestationOrders`.
Fields are the ones the adapter reads: `id`, `status`, `unit`,
`address`, `user_device_address`. -/
structure Order where
  id : Nat
  status : String
  unit : Option String
  address : Option String
  user_device_address : Option String
deriving Repr, DecidableEq

/-- The query parameters extracted from a decoded start payload:
`a` (device address) and `i` (truncated session id); `URLSearchParams.get`
yields `null` for a missing parameter. -/
structure Decoded where
  a : Option String
  i : Option String
deriving Repr, DecidableEq

/-- Environment of one `client.start` handler invocation: the incoming
update's data together with oracles for every external collaborator call the
handler can make.  Each oracle returns what the external system would return
at that point of the run; `Except.error` models a thrown/rejected await. -/
structure Env where
  /-- `ctx.payload`: the start parameter, absent when the user sent a bare
  `/start`. -/
  payload : Option String
  /-- Composite of `Buffer.from(payload, 'base64')`, `decodeURIComponent`
  and `new URLSearchParams(...)` with `.get('a')`/`.get('i')`:
  `Except.error` models a decoding throw (caught by the handler). -/
  decode : String → Except Unit Decoded
  /-- `sessionStore.getSessionWalletAddress(deviceAddress)`: runs inside the
  same try/catch as the decoding. -/
  getSessionWalletAddress : Option String → Except Unit (Option String)
  /-- `ctx.update.message.from.username` (may be absent). -/
  username : Option String
  /-- `ctx.update.message.from.id`, rendered as a string. -/
  userId : Option String
  /-- `sessionStore.getSession(deviceAddress)`. -/
  getSession : Option String → Option Session
  /-- Response to `db.getAttestationOrders({ data: { userId, username }, address })`. -/
  existingAttestation : Option Order
  /-- Order id returned by `db.createAttestationOrder({ username, userId }, address, true)`. -/
  createdOrderId : Nat
  /-- Result of `ctx.deleteMessage()`: `Except.error` models a rejected delete. -/
  deleteMessageResult : Except Unit Unit
  /-- Response to `db.getAttestationOrders({ data, address, excludeAttested: true })`. -/
  refetchOrder : Option Order
  /-- Result of `utils.postAttestationProfile(address, dataObj)`: the issuance
  unit, or `Except.error` for a rejected issuance. -/
  postResult : Except Unit String
  /-- `conf.testnet`. -/
  testnet : Bool
  /-- `this.options.domain`. -/
  domain : String
  /-- `encodeURIComponent`, used on the unit inside the chat confirmation link. -/
  encodeURI : String → String

/-- Observable effects of one handler invocation, in order of occurrence. -/
structure Effects where
  /-- `ctx.reply` texts, in order. -/
  replies : List String := []
  /-- `device.sendMessageToDevice(addr, 'text', msg)` calls, in order. -/
  deviceMsgs : List (String × String) := []
  /-- Number of `db.createAttestationOrder` calls. -/
  createCalls : Nat := 0
  /-- `db.updateWalletAddressInAttestationOrder(orderId, address)` calls. -/
  updateWalletCalls : List (Nat × String) := []
  /-- `db.updateDeviceAddressInAttestationOrder(orderId, deviceAddress)` calls. -/
  updateDeviceCalls : List (Nat × String) := []
  /-- Units passed to `db.updateUnitAndChangeStatus(dataObj, address, unit)`. -/
  updateUnitCalls : List String := []
  /-- Number of `sessionStore.deleteSession` calls. -/
  deleteSessionCalls : Nat := 0
  /-- Number of `utils.postAttestationProfile` calls (the issuance collaborator). -/
  postCalls : Nat := 0
  /-- Number of `ctx.deleteMessage()` calls. -/
  deleteMessageCalls : Nat := 0
  /-- Number of `db.getAttestationOrders` lookups (both forms). -/
  getOrderCalls : Nat := 0
  /-- Whether an exception escaped the handler (reaching `client.catch`). -/
  threw : Bool := false
deriving Repr, DecidableEq

/-! ## Message texts

Literal texts are transcribed from the source.  Messages that live in the
external `attestation-kit` `dictionary` are represented by symbolic
constants: their exact wording is outside this repository. -/

/-- `TELEGRAM_BASE_URL` constant of the source. -/
def TELEGRAM_BASE_URL : String := "https://t.me/"

/-- The explorer URL prefix `https://${conf.testnet ? 'testnet' : ''}explorer.obyte.org/`. -/
def explorerBase (testnet : Bool) : String :=
  "https://" ++ (if testnet then "testnet" else "") ++ "explorer.obyte.org/"

/-- Modelled from the spec: `dictionary.telegram.WELCOME` (external constant
of `attestation-kit`; exact wording not in this repository). -/
def WELCOME : String := "dictionary.telegram.WELCOME"

/-- Modelled from the spec: `dictionary.telegram.USERNAME_NOT_FOUND`
(external constant of `attestation-kit`). -/
def USERNAME_NOT_FOUND : String := "dictionary.telegram.USERNAME_NOT_FOUND"

/-- Modelled from the spec: `dictionary.telegram.INVALID_SESSION`
(external constant of `attestation-kit`). -/
def INVALID_SESSION : String := "dictionary.telegram.INVALID_SESSION"

/-- Modelled from the spec: `dictionary.common.ALREADY_ATTESTED`
(external constant of `attestation-kit`). -/
def ALREADY_ATTESTED : String := "dictionary.common.ALREADY_ATTESTED"

/-- Modelled from the spec: `dictionary.common.INVALID_WALLET_ADDRESS`
(external constant of `attestation-kit`). -/
def INVALID_WALLET_ADDRESS : String := "dictionary.common.INVALID_WALLET_ADDRESS"

/-- Modelled from the spec: `dictionary.wallet.ASK_ADDRESS`
(external constant of `attestation-kit`). -/
def ASK_ADDRESS : String := "dictionary.wallet.ASK_ADDRESS"

/-- The literal reply sent from the payload-decoding catch block. -/
def UNKNOWN_ERROR_REPLY : String := "UNKNOWN_ERROR, please try again later"

/-- The literal reply sent from the issuance-sequence catch block. -/
def ISSUANCE_ERROR_REPLY : String := "Unknown error occurred"

/-- The literal reply sent by the transport-level `client.catch` interceptor. -/
def BOT_ERROR_REPLY : String :=
  "An error occurred while processing your request. Please try again later."

/-- The device message sent when the order is already attested. -/
def alreadyAttestedDeviceMsg (testnet : Bool) (unit : Option String) : String :=
  "Sorry, but you have already attested your wallet address with the same data. Attestation unit: "
  ++ explorerBase testnet ++ jsShow unit
  ++ " . If you want to attest another wallet address or telegram account, please use [attest](command:attest)"

/-- The HTML chat confirmation after successful issuance. -/
def attestedChatMsg (testnet : Bool) (enc : String → String) (unit : String) : String :=
  "Your telegram account is now attested, attestation unit: <a href=\x22"
  ++ explorerBase testnet ++ enc unit ++ "\x22>" ++ unit ++ "</a>"

/-- The device confirmation after successful issuance. -/
def attestedDeviceMsg (testnet : Bool) (unit : String) : String :=
  "Your telegram account is now attested, attestation unit: "
  ++ explorerBase testnet ++ unit

/-- The chat reply sent when no verified wallet address is resolvable. -/
def noWalletMsg (domain : String) : String :=
  "Sorry, but we couldn\x27t find your wallet address. Please follow instructions from <a href=\x27"
  ++ domain ++ "/pairing\x27>Obyte wallet</a>"

/-- Constructor error for a missing bot token. -/
def TOKEN_REQUIRED_MESSAGE : String :=
  "TelegramStrategy: Telegram bot token is required. Please provide it in options.token or set the TELEGRAM_BOT_TOKEN environment variable."

/-- Constructor error for a missing domain. -/
def DOMAIN_REQUIRED_MESSAGE : String :=
  "TelegramStrategy: domain is required. Please provide it in options.domain"

/-! ## HTML escaping -/

/-- Modelled from the spec: `BaseStrategy.escapeHtml` of `attestation-kit`
(external to this repository), described by the spec as escaping
HTML-significant characters; per-character standard HTML escaping. -/
def escapeHtmlChar (c : Char) : List Char :=
  if c = Char.ofNat 38 then "&amp;".data
  else if c = Char.ofNat 60 then "&lt;".data
  else if c = Char.ofNat 62 then "&gt;".data
  else if c = Char.ofNat 34 then "&quot;".data
  else if c = Char.ofNat 39 then "&#39;".data
  else [c]

/-- Modelled from the spec: `BaseStrategy.escapeHtml` applied to a string. -/
def escapeHtml (s : String) : String :=
  String.mk ((s.data.map escapeHtmlChar).flatten)

/-- Number of occurrences of a character in a string. -/
def countChar (s : String) (c : Char) : Nat := s.data.count c

/-! ## The adapter's functions -/

/-- The optional wallet-address line of the attestation summary:
`\nWallet address: <a href='https://…explorer.obyte.org/addr'>addr</a>`. -/
def walletAddressLine (testnet : Bool) (address : String) : String :=
  "\nWallet address: <a href=\x27" ++ explorerBase testnet ++ address ++ "\x27>"
  ++ address ++ "</a>"

/-- `viewAttestationData(id, username, address)`: the HTML summary block.
`id` uses the nullish-coalescing fallback (`id ?? 'N/A'`, so only
`null`/`undefined` fall back), `username` uses truthiness and is passed
through `escapeHtml`, `address` uses truthiness and is interpolated raw. -/
def viewAttestationData (testnet : Bool) (id username address : Option String) : String :=
  "<b>Your data for attestation:</b> \n\n"
  ++ "ID: " ++ (match id with | some v => v | none => "N/A") ++ " \n"
  ++ "Username: " ++ (if jsTruthy username then escapeHtml (jsShow username) else "N/A")
  ++ (if jsTruthy address then walletAddressLine testnet (jsShow address) else "")

/-- `onAttestationProcessRequested(deviceAddress)`: messages sent to the
device, given the session-store response.  The no-session branch does not
return, so the ask-address prompt is sent in both branches. -/
def onAttestationProcessRequested (deviceAddress : String) (sess : Option Session) :
    List (String × String) :=
  match sess with
  | none => [(deviceAddress, WELCOME), (deviceAddress, ASK_ADDRESS)]
  | some _ => [(deviceAddress, ASK_ADDRESS)]

/-- The constructor's own argument checks (after `super(options)`):
`!options.token` throws, then `!options.domain` throws. -/
def constructorChecks (token domain : Option String) : Except String Unit :=
  if !jsTruthy token then .error TOKEN_REQUIRED_MESSAGE
  else if !jsTruthy domain then .error DOMAIN_REQUIRED_MESSAGE
  else .ok ()

/-- Outcome of `walletAddressVerified`: device messages sent before
returning or throwing, and whether an exception escaped. -/
structure WavResult where
  msgs : List (String × String)
  threw : Bool
deriving Repr, DecidableEq

/-- `walletAddressVerified(deviceAddress, walletAddress)`.
`isValid` is the external validator's verdict, `sess` the session-store
response, `encodeStart` the composite of `new URLSearchParams({a, i})` and
`utils.encodeToBase64` (both external), `botUsername` the
`TELEGRAM_BOT_USERNAME` environment value.  When the validator accepts,
`session.id` is dereferenced unconditionally: a missing session throws
before any message is sent. -/
def walletAddressVerified (isValid : Bool) (sess : Option Session)
    (encodeStart : String → String → String) (botUsername deviceAddress walletAddress : String) :
    WavResult :=
  if isValid then
    match sess with
    | none => { msgs := [], threw := true }
    | some s =>
      let url := TELEGRAM_BASE_URL ++ botUsername ++ "?start="
        ++ encodeStart deviceAddress (s.id.take 4)
      { msgs := [(deviceAddress, "Your wallet address " ++ walletAddress ++ " was successfully verified"),
                 (deviceAddress, "Please continue in telegram: \n " ++ url)],
        threw := false }
  else
    { msgs := [(deviceAddress, INVALID_WALLET_ADDRESS)], threw := false }

/-! ## The start handler

The handler body (lines 83-173 of the source) is split into phases that
mirror the source's blocks; effects are accumulated in order. -/

/-- The inner try/catch of the handler (delete prompt, re-fetch order,
request issuance, persist unit, delete session, confirm to chat and paired
device).  Any throw inside is caught and answered with the generic
issuance-error reply. -/
def issuancePhase (env : Env) (acc : Effects) : Effects :=
  let acc := { acc with deleteMessageCalls := acc.deleteMessageCalls + 1 }
  match env.deleteMessageResult with
  | .error _ => { acc with replies := acc.replies ++ [ISSUANCE_ERROR_REPLY] }
  | .ok _ =>
    let order := env.refetchOrder
    let acc := { acc with getOrderCalls := acc.getOrderCalls + 1 }
    let acc := { acc with postCalls := acc.postCalls + 1 }
    match env.postResult with
    | .error _ => { acc with replies := acc.replies ++ [ISSUANCE_ERROR_REPLY] }
    | .ok unit =>
      let acc := { acc with updateUnitCalls := acc.updateUnitCalls ++ [unit] }
      let acc := { acc with deleteSessionCalls := acc.deleteSessionCalls + 1 }
      let acc := { acc with replies := acc.replies ++ [attestedChatMsg env.testnet env.encodeURI unit] }
      match order with
      | none =>
        -- `order.user_device_address` on a null order throws; caught by the catch block.
        { acc with replies := acc.replies ++ [ISSUANCE_ERROR_REPLY] }
      | some o =>
        if jsTruthy o.user_device_address then
          { acc with deviceMsgs := acc.deviceMsgs
              ++ [(jsShow o.user_device_address, attestedDeviceMsg env.testnet unit)] }
        else acc

/-- After an order id is settled (found or created): attach the device
address when present, then run the issuance sequence. -/
def afterOrder (env : Env) (devAddr : Option String) (orderId : Nat) (acc : Effects) : Effects :=
  let acc :=
    if jsTruthy devAddr then
      { acc with updateDeviceCalls := acc.updateDeviceCalls ++ [(orderId, jsShow devAddr)] }
    else acc
  issuancePhase env acc

/-- The `if (address)` branch: show the summary, branch on the existing
order's status, create an order when none exists. -/
def attestationPhase (env : Env) (addr : String) (devAddr : Option String) (acc : Effects) : Effects :=
  let acc := { acc with replies := acc.replies
      ++ [viewAttestationData env.testnet env.userId env.username (some addr)] }
  let acc := { acc with getOrderCalls := acc.getOrderCalls + 1 }
  match env.existingAttestation with
  | some att =>
    if att.status = "attested" then
      let acc :=
        if jsTruthy devAddr then
          { acc with deviceMsgs := acc.deviceMsgs
              ++ [(jsShow devAddr, alreadyAttestedDeviceMsg env.testnet att.unit)] }
        else acc
      { acc with replies := acc.replies ++ [ALREADY_ATTESTED] }
    else
      let orderId := att.id
      let acc :=
        if att.address ≠ some addr then
          { acc with updateWalletCalls := acc.updateWalletCalls ++ [(orderId, addr)] }
        else acc
      afterOrder env devAddr orderId acc
  | none =>
    let acc := { acc with createCalls := acc.createCalls + 1 }
    afterOrder env devAddr env.createdOrderId acc

/-- The handler body after the decoding try/catch: welcome, identity check,
session check, then either the attestation branch or the pairing prompt. -/
def afterDecode (env : Env) (address devAddr sessionId : Option String) : Effects :=
  let acc : Effects := { replies := [WELCOME] }
  if !(jsTruthy env.username && jsTruthy env.userId) then
    { acc with replies := acc.replies ++ [USERNAME_NOT_FOUND] }
  else
    match env.getSession devAddr with
    | none => { acc with replies := acc.replies ++ [INVALID_SESSION] }
    | some s =>
      match sessionId with
      | none =>
        -- `sessionId.slice(0, 4)` on null/undefined throws a TypeError which
        -- escapes the handler and is answered by `client.catch`.
        { acc with replies := acc.replies ++ [BOT_ERROR_REPLY], threw := true }
      | some sid =>
        if s.id.take 4 ≠ sid.take 4 then
          { acc with replies := acc.replies ++ [INVALID_SESSION] }
        else if jsTruthy address then
          attestationPhase env (jsShow address) devAddr acc
        else
          { acc with replies := acc.replies ++ [noWalletMsg env.domain] }

/-- One invocation of the `client.start` handler. -/
def startHandler (env : Env) : Effects :=
  match env.payload with
  | none => afterDecode env none none none
  | some p =>
    match env.decode p with
    | .error _ => { replies := [UNKNOWN_ERROR_REPLY] }
    | .ok d =>
      match env.getSessionWalletAddress d.a with
      | .error _ => { replies := [UNKNOWN_ERROR_REPLY] }
      | .ok address => afterDecode env address d.a d.i

/-! ## Concrete environments (for witnesses and counterexamples) -/

/-- A baseline happy-path environment: well-formed payload decoding to
device address `DEVICE1` and truncated session id `abcd`, a resolvable
wallet address `WALLET1`, chat identity `alice`/`42`, a matching session
`abcd1234ef`, no existing order, and a successful issuance `UNIT42`. -/
def baseEnv : Env where
  payload := some "PAYLOAD"
  decode := fun _ => Except.ok ⟨some "DEVICE1", some "abcd"⟩
  getSessionWalletAddress := fun _ => Except.ok (some "WALLET1")
  username := some "alice"
  userId := some "42"
  getSession := fun _ => some ⟨"abcd1234ef"⟩
  existingAttestation := none
  createdOrderId := 7
  deleteMessageResult := Except.ok ()
  refetchOrder := some { id := 7, status := "pending", unit := none,
                         address := some "WALLET1", user_device_address := some "DEVICE1" }
  postResult := Except.ok "UNIT42"
  testnet := false
  domain := "https://example.org"
  encodeURI := fun s => s

/-- An order already in "attested" status for the same subject and address. -/
def attestedOrder : Order where
  id := 3
  status := "attested"
  unit := some "UNITOLD"
  address := some "WALLET1"
  user_device_address := some "DEVICE1"

/-- `baseEnv` with an already-attested existing order. -/
def envAttested : Env := { baseEnv with existingAttestation := some attestedOrder }

/-- `baseEnv` with a payload whose truncated session id does not match the
stored session (`zzzz` against `abcd1234ef`). -/
def envMismatch : Env := { baseEnv with decode := fun _ => Except.ok ⟨some "DEVICE1", some "zzzz"⟩ }

/-- `baseEnv` with a malformed payload (the decoding throws). -/
def envBadPayload : Env := { baseEnv with decode := fun _ => Except.error () }

/-- `baseEnv` with a rejected `ctx.deleteMessage()`. -/
def envDeleteFails : Env := { baseEnv with deleteMessageResult := Except.error () }

/-! ## Helper lemmas -/

/-- The raw HTML-significant characters: `<`, `>`, `"`, `'`. -/
def htmlSigChars : List Char := [Char.ofNat 60, Char.ofNat 62, Char.ofNat 34, Char.ofNat 39]

theorem escapeHtmlChar_count_sig (c x : Char) (hx : x ∈ htmlSigChars) :
    (escapeHtmlChar c).count x = 0 := by
  unfold escapeHtmlChar
  split_ifs with h1 h2 h3 h4 h5
  · fin_cases hx <;> decide
  · fin_cases hx <;> decide
  · fin_cases hx <;> decide
  · fin_cases hx <;> decide
  · fin_cases hx <;> decide
  · rw [List.count_eq_zero, List.mem_singleton]
    fin_cases hx
    · exact fun h => h2 h.symm
    · exact fun h => h3 h.symm
    · exact fun h => h4 h.symm
    · exact fun h => h5 h.symm

theorem escapeHtml_count_sig (s : String) (x : Char) (hx : x ∈ htmlSigChars) :
    countChar (escapeHtml s) x = 0 := by
  unfold countChar escapeHtml
  show ((s.data.map escapeHtmlChar).flatten).count x = 0
  generalize s.data = l
  induction l with
  | nil => rfl
  | cons c cs ih =>
    rw [List.map_cons, List.flatten_cons, List.count_append, ih,
      escapeHtmlChar_count_sig c x hx]

theorem jsTruthy_none : jsTruthy none = false := rfl

theorem jsTruthy_some_of_ne (s : String) (h : s ≠ "") : jsTruthy (some s) = true := by
  simp [jsTruthy, h]

theorem countChar_append (a b : String) (c : Char) :
    countChar (a ++ b) c = countChar a c + countChar b c := by
  unfold countChar
  rw [String.data_append, List.count_append]

theorem append_ne_empty_of_right (a b : String) (hb : b ≠ "") : a ++ b ≠ "" := by
  intro h
  apply hb
  have hd := congrArg String.data h
  rw [String.data_append] at hd
  rcases List.append_eq_nil.mp hd with ⟨-, h2⟩
  exact String.ext (by rw [h2])

/-! ## Claims -/

/-- C7: `onAttestationProcessRequested` sends the ask-for-wallet-address
prompt unconditionally, and additionally sends the welcome notice exactly
when the session store returns no session: with no session both messages
are sent, with a session only the prompt. -/
theorem c7_attestation_request_prompts (dev : String) (sess : Option Session) :
    (dev, ASK_ADDRESS) ∈ onAttestationProcessRequested dev sess
    ∧ (sess = none →
        onAttestationProcessRequested dev sess = [(dev, WELCOME), (dev, ASK_ADDRESS)])
    ∧ (∀ s, sess = some s →
        onAttestationProcessRequested dev sess = [(dev, ASK_ADDRESS)]) := by
  refine ⟨?_, ?_, ?_⟩ <;> cases sess <;> simp [onAttestationProcessRequested]

/-- Witness for C7 at concrete inputs. -/
theorem c7_witness :
    onAttestationProcessRequested "DEVICE" none
      = [("DEVICE", WELCOME), ("DEVICE", ASK_ADDRESS)]
    ∧ onAttestationProcessRequested "DEVICE" (some ⟨"abcd1234"⟩)
      = [("DEVICE", ASK_ADDRESS)] :=
  ⟨(c7_attestation_request_prompts "DEVICE" none).2.1 rfl,
   (c7_attestation_request_prompts "DEVICE" (some ⟨"abcd1234"⟩)).2.2 ⟨"abcd1234"⟩ rfl⟩

/-- C8 counterexample: an empty-string token is present (`isSome`), yet the
constructor throws, refuting "succeeds whenever both are present". -/
theorem c8_counterexample :
    (some "" : Option String).isSome = true
    ∧ (some "example.org" : Option String).isSome = true
    ∧ constructorChecks (some "") (some "example.org")
      = Except.error TOKEN_REQUIRED_MESSAGE :=
  ⟨rfl, rfl, rfl⟩

/-- C8 (amended): the constructor throws whenever `options.token` is absent
or empty (falsy), then whenever `options.domain` is absent or empty, and
succeeds past these checks exactly when both are present and non-empty. -/
theorem c8_constructor_checks (token domain : Option String) :
    (constructorChecks token domain = Except.ok ()
      ↔ jsTruthy token = true ∧ jsTruthy domain = true)
    ∧ (jsTruthy token = false →
        constructorChecks token domain = Except.error TOKEN_REQUIRED_MESSAGE)
    ∧ (jsTruthy token = true → jsTruthy domain = false →
        constructorChecks token domain = Except.error DOMAIN_REQUIRED_MESSAGE) := by
  unfold constructorChecks
  cases h1 : jsTruthy token <;> cases h2 : jsTruthy domain <;> simp [h1, h2]

/-- Witness for C8's amended theorem at concrete inputs. -/
theorem c8_witness :
    constructorChecks none (some "example.org") = Except.error TOKEN_REQUIRED_MESSAGE
    ∧ constructorChecks (some "TOKEN") none = Except.error DOMAIN_REQUIRED_MESSAGE
    ∧ constructorChecks (some "TOKEN") (some "example.org") = Except.ok () :=
  ⟨(c8_constructor_checks none (some "example.org")).2.1 rfl,
   (c8_constructor_checks (some "TOKEN") none).2.2 rfl rfl,
   (c8_constructor_checks (some "TOKEN") (some "example.org")).1.mpr ⟨rfl, rfl⟩⟩

/-- C9: when the validator accepts the wallet address,
`walletAddressVerified` dereferences the session's `id` unconditionally:
with no session it throws before sending any device message; with a session
it sends exactly two device messages, the confirmation and the deep link
built from the device address and the first four characters of the
session id. -/
theorem c9_wallet_address_verified (sess : Option Session) (enc : String → String → String)
    (bot dev w : String) :
    (sess = none →
      walletAddressVerified true sess enc bot dev w = { msgs := [], threw := true })
    ∧ (∀ s, sess = some s →
        walletAddressVerified true sess enc bot dev w =
          { msgs := [(dev, "Your wallet address " ++ w ++ " was successfully verified"),
                     (dev, "Please continue in telegram: \n " ++ TELEGRAM_BASE_URL ++ bot
                        ++ "?start=" ++ enc dev (s.id.take 4))],
            threw := false }) := by
  constructor
  · rintro rfl; rfl
  · rintro s rfl; rfl

/-- Witness for C9 at concrete inputs. -/
theorem c9_witness :
    walletAddressVerified true none (fun a i => a ++ ":" ++ i) "bot" "DEV" "WALLET"
      = { msgs := [], threw := true }
    ∧ walletAddressVerified true (some ⟨"abcd1234"⟩) (fun a i => a ++ ":" ++ i) "bot" "DEV" "WALLET"
      = { msgs := [("DEV", "Your wallet address WALLET was successfully verified"),
                   ("DEV", "Please continue in telegram: \n " ++ TELEGRAM_BASE_URL ++ "bot"
                      ++ "?start=" ++ "DEV" ++ ":" ++ String.take "abcd1234" 4)],
          threw := false } :=
  ⟨(c9_wallet_address_verified none (fun a i => a ++ ":" ++ i) "bot" "DEV" "WALLET").1 rfl,
   (c9_wallet_address_verified (some ⟨"abcd1234"⟩) (fun a i => a ++ ":" ++ i) "bot" "DEV" "WALLET").2
     ⟨"abcd1234"⟩ rfl⟩

/-- C4: `viewAttestationData` is a pure function (a Lean function of its
arguments); the wallet-address line is appended exactly when the address is
truthy and is never empty, and a truthy username is HTML-escaped: it
contributes exactly as many raw HTML-significant characters (`<`, `>`,
`"`, `'`) to the output as no username at all, namely none. -/
theorem c4_view_attestation_data (t : Bool) (id u a : Option String) :
    (jsTruthy a = false → viewAttestationData t id u a = viewAttestationData t id u none)
    ∧ (jsTruthy a = true →
        viewAttestationData t id u a
          = viewAttestationData t id u none ++ walletAddressLine t (jsShow a)
        ∧ walletAddressLine t (jsShow a) ≠ "")
    ∧ (jsTruthy u = true → ∀ x, x ∈ htmlSigChars →
        countChar (viewAttestationData t id u a) x
          = countChar (viewAttestationData t id none a) x) := by
  refine ⟨?_, ?_, ?_⟩
  · intro ha
    simp [viewAttestationData, ha, jsTruthy_none]
  · intro ha
    constructor
    · simp [viewAttestationData, ha, jsTruthy_none]
    · exact append_ne_empty_of_right _ _ (by decide)
  · intro hu x hx
    have h1 := escapeHtml_count_sig (jsShow u) x hx
    have h2 : countChar "N/A" x = 0 := by fin_cases hx <;> decide
    simp [viewAttestationData, countChar_append, hu, jsTruthy_none, h1, h2]

/-- Witness for C4 at concrete inputs. -/
theorem c4_witness :
    viewAttestationData false (some "7") (some "bob") (some "WALLET")
      = viewAttestationData false (some "7") (some "bob") none ++ walletAddressLine false "WALLET"
    ∧ walletAddressLine false "WALLET" ≠ ""
    ∧ countChar (viewAttestationData false (some "7") (some "<bob>") (some "WALLET")) (Char.ofNat 60)
      = countChar (viewAttestationData false (some "7") none (some "WALLET")) (Char.ofNat 60) := by
  refine ⟨?_, ?_, ?_⟩
  · exact ((c4_view_attestation_data false (some "7") (some "bob") (some "WALLET")).2.1
      (by decide)).1
  · exact ((c4_view_attestation_data false (some "7") (some "bob") (some "WALLET")).2.1
      (by decide)).2
  · exact (c4_view_attestation_data false (some "7") (some "<bob>") (some "WALLET")).2.2
      (by decide) (Char.ofNat 60) (by decide)

/-- C10: in `viewAttestationData`, a null id and a falsy username both
render as the literal `N/A`; only the username is HTML-escaped — a `<` in
the id or in the address flows raw into the output (once for the id, twice
for the address, which appears in both the href and the link text), while a
`<` in the username contributes no raw `<` at all. -/
theorem c10_raw_interpolation (t : Bool) :
    viewAttestationData t none none none
      = "<b>Your data for attestation:</b> \n\nID: N/A \nUsername: N/A"
    ∧ viewAttestationData t (some "7") (some "") none
      = "<b>Your data for attestation:</b> \n\nID: 7 \nUsername: N/A"
    ∧ countChar (viewAttestationData t (some "<b>") (some "x") none) (Char.ofNat 60)
      = countChar (viewAttestationData t (some "7") (some "x") none) (Char.ofNat 60) + 1
    ∧ countChar (viewAttestationData t (some "7") (some "<b>") none) (Char.ofNat 60)
      = countChar (viewAttestationData t (some "7") (some "x") none) (Char.ofNat 60)
    ∧ countChar (viewAttestationData t (some "7") (some "x") (some "<")) (Char.ofNat 60)
      = countChar (viewAttestationData t (some "7") (some "x") (some "W")) (Char.ofNat 60) + 2 := by
  cases t <;> exact ⟨rfl, rfl, by decide, by decide, by decide⟩

/-- C3: a present but malformed payload (the decoding steps throw) makes the
start handler reply only the generic decode-error message: the effect trace
is exactly that one reply — no welcome message, no order lookup, no order
mutation, no issuance call. -/
theorem c3_decode_error_aborts (env : Env) (p : String)
    (hp : env.payload = some p) (hd : env.decode p = Except.error ()) :
    startHandler env = { replies := [UNKNOWN_ERROR_REPLY] } := by
  simp [startHandler, hp, hd]

/-- Witness for C3 at the concrete environment `envBadPayload`. -/
theorem c3_witness : startHandler envBadPayload = { replies := [UNKNOWN_ERROR_REPLY] } :=
  c3_decode_error_aborts envBadPayload "PAYLOAD" rfl rfl

/-- C2: when the fetched session is missing or its truncated id does not
match the payload's truncated id, the handler replies the invalid-session
message after the welcome and performs nothing else: no
`createAttestationOrder`, no `updateWalletAddressInAttestationOrder`, no
`updateDeviceAddressInAttestationOrder`, no `updateUnitAndChangeStatus`,
and no issuance call. -/
theorem c2_invalid_session (env : Env) (p : String) (d : Decoded) (sid : String)
    (hp : env.payload = some p)
    (hd : env.decode p = Except.ok d)
    (hu : jsTruthy env.username = true)
    (hid : jsTruthy env.userId = true)
    (hi : d.i = some sid)
    (hbad : ∀ s, env.getSession d.a = some s → s.id.take 4 ≠ sid.take 4) :
    ∀ address, env.getSessionWalletAddress d.a = Except.ok address →
      startHandler env = { replies := [WELCOME, INVALID_SESSION] } := by
  intro address hw
  cases hgs : env.getSession d.a with
  | none => simp [startHandler, hp, hd, hw, afterDecode, hu, hid, hgs, hi]
  | some s =>
    have hne := hbad s hgs
    simp [startHandler, hp, hd, hw, afterDecode, hu, hid, hgs, hi, hne]

/-- Witness for C2 at the concrete environment `envMismatch`. -/
theorem c2_witness : startHandler envMismatch = { replies := [WELCOME, INVALID_SESSION] } := by
  refine c2_invalid_session envMismatch "PAYLOAD" ⟨some "DEVICE1", some "zzzz"⟩ "zzzz"
    rfl rfl (by decide) (by decide) rfl ?_ (some "WALLET1") rfl
  intro s hs
  have : s = (⟨"abcd1234ef"⟩ : Session) := by
    simpa [envMismatch, baseEnv] using hs.symm
  rw [this]
  decide

/-- C1: with a matching session and an existing order already in "attested"
status for the subject and address, the start handler never calls the
issuance collaborator and performs no order mutation: the whole effect
trace is the welcome, the data summary, the already-attested reply, one
order lookup, and — exactly when a device address was decoded — one device
notification carrying the existing issuance unit. -/
theorem c1_already_attested (env : Env) (p : String) (d : Decoded) (addr : String)
    (s : Session) (sid : String) (att : Order)
    (hp : env.payload = some p)
    (hd : env.decode p = Except.ok d)
    (hw : env.getSessionWalletAddress d.a = Except.ok (some addr))
    (haddr : addr ≠ "")
    (hu : jsTruthy env.username = true)
    (hid : jsTruthy env.userId = true)
    (hi : d.i = some sid)
    (hs : env.getSession d.a = some s)
    (hmatch : s.id.take 4 = sid.take 4)
    (hatt : env.existingAttestation = some att)
    (hstatus : att.status = "attested") :
    startHandler env =
      { replies := [WELCOME, viewAttestationData env.testnet env.userId env.username (some addr),
                    ALREADY_ATTESTED],
        deviceMsgs :=
          if jsTruthy d.a then [(jsShow d.a, alreadyAttestedDeviceMsg env.testnet att.unit)] else [],
        getOrderCalls := 1 } := by
  have htr := jsTruthy_some_of_ne addr haddr
  cases hda : jsTruthy d.a <;>
    simp [startHandler, hp, hd, hw, afterDecode, hu, hid, hs, hi, hmatch, htr,
      attestationPhase, hatt, hstatus, jsShow, hda]

set_option maxRecDepth 10000 in
/-- Witness for C1 at the concrete environment `envAttested`. -/
theorem c1_witness :
    startHandler envAttested =
      { replies := [WELCOME,
                    viewAttestationData false (some "42") (some "alice") (some "WALLET1"),
                    ALREADY_ATTESTED],
        deviceMsgs := [("DEVICE1", alreadyAttestedDeviceMsg false (some "UNITOLD"))],
        getOrderCalls := 1 } := by
  rw [c1_already_attested envAttested "PAYLOAD" ⟨some "DEVICE1", some "abcd"⟩ "WALLET1"
    ⟨"abcd1234ef"⟩ "abcd" attestedOrder rfl rfl rfl (by decide) (by decide) (by decide)
    rfl rfl (by decide) rfl rfl]
  decide

/-- C5: on the fresh happy path (well-formed payload with device address,
matching session, resolvable address, no existing order, successful delete,
issuance and consistent re-fetch), the handler creates the order exactly
once, attaches the decoded device address to it, calls the issuance
collaborator exactly once, persists the returned unit while marking the
order attested, deletes the session, and sends the unit confirmation both
to the chat and to the paired device. -/
theorem c5_fresh_attestation (env : Env) (p : String) (d : Decoded) (dev addr : String)
    (s : Session) (sid : String) (unit : String) (o : Order)
    (hp : env.payload = some p)
    (hd : env.decode p = Except.ok d)
    (ha : d.a = some dev) (hdev : dev ≠ "")
    (hi : d.i = some sid)
    (hw : env.getSessionWalletAddress d.a = Except.ok (some addr)) (haddr : addr ≠ "")
    (hu : jsTruthy env.username = true) (hid : jsTruthy env.userId = true)
    (hs : env.getSession d.a = some s) (hmatch : s.id.take 4 = sid.take 4)
    (hnone : env.existingAttestation = none)
    (hdel : env.deleteMessageResult = Except.ok ())
    (hpost : env.postResult = Except.ok unit)
    (href : env.refetchOrder = some o)
    (ho : o.user_device_address = some dev) :
    startHandler env =
      { replies := [WELCOME, viewAttestationData env.testnet env.userId env.username (some addr),
                    attestedChatMsg env.testnet env.encodeURI unit],
        deviceMsgs := [(dev, attestedDeviceMsg env.testnet unit)],
        createCalls := 1,
        updateWalletCalls := [],
        updateDeviceCalls := [(env.createdOrderId, dev)],
        updateUnitCalls := [unit],
        deleteSessionCalls := 1,
        postCalls := 1,
        deleteMessageCalls := 1,
        getOrderCalls := 2 } := by
  have htr := jsTruthy_some_of_ne addr haddr
  have htrd : jsTruthy (some dev) = true := jsTruthy_some_of_ne dev hdev
  rw [ha] at hw hs
  simp [startHandler, hp, hd, hw, afterDecode, hu, hid, hs, hi, hmatch, htr,
    attestationPhase, hnone, afterOrder, htrd, ha, issuancePhase, hdel, hpost, href,
    ho, jsShow]

/-- Witness for C5 at the concrete environment `baseEnv`. -/
theorem c5_witness :
    startHandler baseEnv =
      { replies := [WELCOME,
                    viewAttestationData false (some "42") (some "alice") (some "WALLET1"),
                    attestedChatMsg false (fun s => s) "UNIT42"],
        deviceMsgs := [("DEVICE1", attestedDeviceMsg false "UNIT42")],
        createCalls := 1,
        updateWalletCalls := [],
        updateDeviceCalls := [(7, "DEVICE1")],
        updateUnitCalls := ["UNIT42"],
        deleteSessionCalls := 1,
        postCalls := 1,
        deleteMessageCalls := 1,
        getOrderCalls := 2 } := by
  rw [c5_fresh_attestation baseEnv "PAYLOAD" ⟨some "DEVICE1", some "abcd"⟩ "DEVICE1" "WALLET1"
    ⟨"abcd1234ef"⟩ "abcd" "UNIT42"
    { id := 7, status := "pending", unit := none, address := some "WALLET1",
      user_device_address := some "DEVICE1" }
    rfl rfl rfl (by decide) rfl rfl (by decide) (by decide) (by decide) rfl (by decide)
    rfl rfl rfl rfl rfl]
  decide

/-- C6 counterexample: in `envDeleteFails` the prompt-message deletion is
rejected and the handler then performs NO issuance call, NO unit
persistence or status change, and NO session deletion — refuting the claim
that a deletion failure does not prevent these steps. -/
theorem c6_counterexample :
    envDeleteFails.deleteMessageResult = Except.error ()
    ∧ (startHandler envDeleteFails).postCalls = 0
    ∧ (startHandler envDeleteFails).updateUnitCalls = []
    ∧ (startHandler envDeleteFails).deleteSessionCalls = 0
    ∧ (startHandler envDeleteFails).replies.getLast? = some ISSUANCE_ERROR_REPLY := by
  refine ⟨rfl, ?_, ?_, ?_, ?_⟩ <;> decide

/-- C6 (amended): the deletion of the outgoing chat prompt message is NOT
best-effort: it runs inside the issuance try/catch, so its failure aborts
the sequence — the issuance request, the unit persistence and status
change, and the session deletion are all skipped, and the handler replies
with the generic unknown-error message. -/
theorem c6_delete_failure_aborts (env : Env) (p : String) (d : Decoded) (dev addr : String)
    (s : Session) (sid : String)
    (hp : env.payload = some p)
    (hd : env.decode p = Except.ok d)
    (ha : d.a = some dev) (hdev : dev ≠ "")
    (hi : d.i = some sid)
    (hw : env.getSessionWalletAddress d.a = Except.ok (some addr)) (haddr : addr ≠ "")
    (hu : jsTruthy env.username = true) (hid : jsTruthy env.userId = true)
    (hs : env.getSession d.a = some s) (hmatch : s.id.take 4 = sid.take 4)
    (hnone : env.existingAttestation = none)
    (hdel : env.deleteMessageResult = Except.error ()) :
    startHandler env =
      { replies := [WELCOME, viewAttestationData env.testnet env.userId env.username (some addr),
                    ISSUANCE_ERROR_REPLY],
        createCalls := 1,
        updateDeviceCalls := [(env.createdOrderId, dev)],
        deleteMessageCalls := 1,
        getOrderCalls := 1 } := by
  have htr := jsTruthy_some_of_ne addr haddr
  have htrd : jsTruthy (some dev) = true := jsTruthy_some_of_ne dev hdev
  rw [ha] at hw hs
  simp [startHandler, hp, hd, hw, afterDecode, hu, hid, hs, hi, hmatch, htr,
    attestationPhase, hnone, afterOrder, htrd, ha, issuancePhase, hdel, jsShow]

/-- Witness for C6's amended theorem at the concrete environment `envDeleteFails`. -/
theorem c6_witness :
    startHandler envDeleteFails =
      { replies := [WELCOME,
                    viewAttestationData false (some "42") (some "alice") (some "WALLET1"),
                    ISSUANCE_ERROR_REPLY],
        createCalls := 1,
        updateDeviceCalls := [(7, "DEVICE1")],
        deleteMessageCalls := 1,
        getOrderCalls := 1 } := by
  rw [c6_delete_failure_aborts envDeleteFails "PAYLOAD" ⟨some "DEVICE1", some "abcd"⟩
    "DEVICE1" "WALLET1" ⟨"abcd1234ef"⟩ "abcd"
    rfl rfl rfl (by decide) rfl rfl (by decide) (by decide) (by decide) rfl (by decide)
    rfl rfl]
  decide

end TelegramAttestation
